import Mathlib

/-!
Shallow embedding of the call-session lifecycle manager in
`src/app/(routes)/dashboard/medical-agent/[sessionId]/page.tsx`
(the `MedicalVoiceAgent` React component).

The component's React `useState` hooks become fields of an explicit
`AgentState` record; each handler / UI callback becomes a function
`AgentState → AgentState`.  Loosely-typed JavaScript payloads (the Vapi
`message` and `error` event payloads) are embedded as a small JS-value
type `JsVal`; property access `x?.f` becomes an `Option`-returning
lookup.  External effects are recorded in the state: every POST to
`/api/medical-report` increments `reportPosts`, every `toast.*` call
appends to `toasts`, every `new Vapi(...)` appends a `Channel` record
(tracking the listeners registered on it via `vapi.on` / removed via
`vapi.off`) to `channels`.  `crypto.randomUUID()` is modelled by a
fresh-id counter `nextMsgId`.
-/

namespace MedAgent

/-- A loosely-typed JavaScript value, enough to embed the Vapi `message`
and `error` event payloads. -/
inductive JsVal where
  | str : String → JsVal
  | num : Int → JsVal
  | obj : List (String × JsVal) → JsVal
  | jsNull : JsVal
deriving Repr

/-- Optional-chaining property access `v?.f`: a field lookup that yields
`none` unless `v` is an object carrying the field. -/
def JsVal.getField : JsVal → String → Option JsVal
  | JsVal.obj fields, name => fields.lookup name
  | _, _ => none

/-- JavaScript `typeof v === 'object' && v` restricted to our values:
objects are the only truthy object-typed values here (`null` is falsy). -/
def JsVal.asObj : Option JsVal → Option JsVal
  | some (JsVal.obj fs) => some (JsVal.obj fs)
  | _ => none

/-- `typeof x === 'string' && x` as used in the `||` chain of
`handleError`: yields the string only when the field holds a *nonempty*
string (the empty string is falsy in JavaScript, so the chain skips it). -/
def truthyStr : Option JsVal → Option String
  | some (JsVal.str s) => if s = "" then none else some s
  | _ => none

/-- The error-message resolution of `handleError`
(page.tsx lines 166-185): the `||` chain
`e?.errorMsg || nested?.errorMsg || nested?.message || nestedInner?.message
 || e?.message || (typeof err === 'string' ? err : 'Call ended unexpectedly.')`
where `nested` is `e.error` when that is a truthy object and
`nestedInner` is `nested.error` when that is a truthy object. -/
def normalizeError (err : JsVal) : String :=
  let nested := JsVal.asObj (err.getField "error")
  let nestedInner := JsVal.asObj (nested.bind (fun n => n.getField "error"))
  ((truthyStr (err.getField "errorMsg")).orElse fun _ =>
   (truthyStr (nested.bind fun n => n.getField "errorMsg")).orElse fun _ =>
   (truthyStr (nested.bind fun n => n.getField "message")).orElse fun _ =>
   (truthyStr (nestedInner.bind fun n => n.getField "message")).orElse fun _ =>
   (truthyStr (err.getField "message"))).getD
    (match err with
     | JsVal.str s => s
     | _ => "Call ended unexpectedly.")

/-- A finalized transcript entry (`type Message` in page.tsx); the
`crypto.randomUUID()` identifier is modelled as a `Nat` drawn from a
fresh-id counter. -/
structure Message where
  id : Nat
  role : String
  text : String
deriving Repr, DecidableEq

/-- The relevant fields of `doctorAgent` read by `StartCall`. -/
structure DoctorAgent where
  voiceId : Option String
  agentPrompt : Option String
deriving Repr, DecidableEq

/-- The relevant fields of `SessionDetail`. -/
structure SessionDetail where
  sessionId : String
  selectedDoctor : DoctorAgent
deriving Repr, DecidableEq

/-- The six Vapi event kinds the component listens to. -/
inductive EventKind where
  | callStart | callEnd | message | speechStart | speechEnd | error
deriving Repr, DecidableEq

/-- The inline assistant configuration built by `StartCall`
(`VapiAgentConfig`). -/
structure VapiAgentConfig where
  name : String
  firstMessage : String
  transcriberProvider : String
  transcriberLanguage : String
  voiceProvider : String
  voiceId : String
  modelProvider : String
  model : String
  systemPrompt : Option String
deriving Repr, DecidableEq

/-- How `vapi.start` was invoked: with a dashboard assistant id or with
the inline configuration. -/
inductive StartArg where
  | assistant : String → StartArg
  | inline : VapiAgentConfig → StartArg
deriving Repr, DecidableEq

/-- One `new Vapi(apiKey)` instance: its identity, the listeners
currently registered on it (event kind paired with the identity of the
handler set passed to `vapi.on`), how it was started, and whether
`stop()` was requested on it. -/
structure Channel where
  chanId : Nat
  listeners : List (EventKind × Nat)
  startedWith : Option StartArg
  stopRequested : Bool
deriving Repr, DecidableEq

/-- The ambient environment of the component: the two
`process.env.NEXT_PUBLIC_VAPI_*` variables. -/
structure Env where
  apiKey : Option String
  assistantId : Option String
deriving Repr, DecidableEq

/-- The component state: each React `useState` hook and the
`vapiHandlersRef` ref become a field; external effects are recorded in
`channels`, `reportPosts`, `toasts` and `redirected`. -/
structure AgentState where
  sessionDetail : Option SessionDetail
  callStarted : Bool
  vapiInstance : Option Nat
  currentRole : Option String
  liveTranscript : String
  messages : List Message
  loading : Bool
  handlersRef : Option Nat
  channels : List Channel
  nextChanId : Nat
  nextMsgId : Nat
  reportPosts : Nat
  toasts : List String
  redirected : Bool
deriving Repr, DecidableEq

/-- The component state on mount, after `GetSessionDetails` has set
`sessionDetail` to `sd` (or failed, leaving it `none`). -/
def initState (sd : Option SessionDetail) : AgentState :=
  { sessionDetail := sd
    callStarted := false
    vapiInstance := none
    currentRole := none
    liveTranscript := ""
    messages := []
    loading := false
    handlersRef := none
    channels := []
    nextChanId := 0
    nextMsgId := 0
    reportPosts := 0
    toasts := []
    redirected := false }

/-- `resetCallState` (page.tsx lines 54-60): clears the call-started
flag, the Vapi instance, the current role, the live transcript and the
loading flag. -/
def resetCallState (s : AgentState) : AgentState :=
  { s with
    callStarted := false
    vapiInstance := none
    currentRole := none
    liveTranscript := ""
    loading := false }

/-- `handleCallStart` (page.tsx lines 118-122). -/
def handleCallStart (s : AgentState) : AgentState :=
  { s with loading := false, callStarted := true }

/-- `handleCallEnd` (page.tsx lines 124-128): reset the call state and
null out the handler ref. -/
def handleCallEnd (s : AgentState) : AgentState :=
  { (resetCallState s) with handlersRef := none }

/-- The well-formedness check of `handleMessage` (page.tsx lines
138-143): `msg?.type === 'transcript'` and `role`, `transcriptType`,
`transcript` are all strings. -/
def transcriptFields (v : JsVal) : Option (String × String × String) :=
  match v.getField "type" with
  | some (JsVal.str t) =>
    if t = "transcript" then
      match v.getField "role", v.getField "transcriptType", v.getField "transcript" with
      | some (JsVal.str role), some (JsVal.str ttype), some (JsVal.str text) =>
          some (role, ttype, text)
      | _, _, _ => none
    else none
  | _ => none

/-- `handleMessage` (page.tsx lines 130-156): on a well-formed
`partial` transcript replace the live transcript and current role; on a
well-formed `final` transcript append a fresh-id entry to `messages`
and clear the live transcript and role; otherwise do nothing. -/
def handleMessage (payload : JsVal) (s : AgentState) : AgentState :=
  match transcriptFields payload with
  | some (role, ttype, text) =>
      if ttype = "partial" then
        { s with liveTranscript := text, currentRole := some role }
      else if ttype = "final" then
        { s with
          messages := s.messages ++ [{ id := s.nextMsgId, role := role, text := text }]
          nextMsgId := s.nextMsgId + 1
          liveTranscript := ""
          currentRole := none }
      else s
  | none => s

/-- `handleSpeechStart` (page.tsx lines 158-160). -/
def handleSpeechStart (s : AgentState) : AgentState :=
  { s with currentRole := some "assistant" }

/-- `handleSpeechEnd` (page.tsx lines 162-164). -/
def handleSpeechEnd (s : AgentState) : AgentState :=
  { s with currentRole := some "user" }

/-- `handleError` (page.tsx lines 166-195): normalize the payload,
reset the call state, null out the handler ref, and surface the
normalized message via `toast.error`.  It performs no `vapi.off`
call, so the listeners registered on the channel are untouched. -/
def handleError (payload : JsVal) (s : AgentState) : AgentState :=
  let msg := normalizeError payload
  { (resetCallState s) with
    handlersRef := none
    toasts := s.toasts ++ [msg] }

/-- The six `vapi.on(...)` registrations of `StartCall` (page.tsx lines
207-212), all with handlers of identity `hid`. -/
def allListeners (hid : Nat) : List (EventKind × Nat) :=
  [(EventKind.callStart, hid), (EventKind.callEnd, hid),
   (EventKind.message, hid), (EventKind.speechStart, hid),
   (EventKind.speechEnd, hid), (EventKind.error, hid)]

/-- The inline `VapiAgentConfig` literal of `StartCall` (page.tsx lines
94-115). -/
def mkAgentConfig (sd : SessionDetail) : VapiAgentConfig :=
  { name := "AI Medical Doctor Voice Agent"
    firstMessage := "Hi there! I’m your AI Medical Assistant. I’m here to help you with any health questions or concerns you might have today. How are you feeling?"
    transcriberProvider := "assembly-ai"
    transcriberLanguage := "en"
    voiceProvider := "playht"
    voiceId := sd.selectedDoctor.voiceId.getD "will"
    modelProvider := "openai"
    model := "gpt-4"
    systemPrompt := sd.selectedDoctor.agentPrompt }

/-- The argument of the `vapi.start(...)` call (page.tsx lines 214-221):
the dashboard assistant id when `NEXT_PUBLIC_VAPI_ASSISTANT_ID` is set,
the inline configuration otherwise. -/
def startArgFor (env : Env) (sd : SessionDetail) : StartArg :=
  match env.assistantId with
  | some aid => StartArg.assistant aid
  | none => StartArg.inline (mkAgentConfig sd)

/-- `StartCall` (page.tsx lines 78-222): bail out if `sessionDetail` is
absent; set loading; if the API key is missing, clear loading and toast
a configuration error; otherwise create a fresh Vapi instance, register
one listener per event kind with a fresh handler set, store both in the
component state, and start the channel with the dashboard assistant id
when present or the inline configuration otherwise.  There is no check
of `callStarted`, `loading` or `vapiInstance`. -/
def StartCall (env : Env) (s : AgentState) : AgentState :=
  match s.sessionDetail with
  | none => s
  | some sd =>
    let s := { s with loading := true }
    match env.apiKey with
    | none =>
        { s with
          loading := false
          toasts := s.toasts ++ ["Missing NEXT_PUBLIC_VAPI_API_KEY"] }
    | some _ =>
        let cid := s.nextChanId
        let hid := s.nextChanId
        let chan : Channel :=
          { chanId := cid
            listeners := allListeners hid
            startedWith := some (startArgFor env sd)
            stopRequested := false }
        { s with
          vapiInstance := some cid
          handlersRef := some hid
          channels := s.channels ++ [chan]
          nextChanId := cid + 1 }

/-- `GenerateReport` (page.tsx lines 268-280): set loading, POST the
messages and session data to `/api/medical-report`, and clear loading.
`ok` is whether the POST resolves; a rejecting POST makes
`GenerateReport` throw after the POST was issued with loading still
set.  The thrown/normal outcome is the `Bool` of the result pair. -/
def GenerateReport (ok : Bool) (s : AgentState) : AgentState × Bool :=
  let s := { s with loading := true }
  let s := { s with reportPosts := s.reportPosts + 1 }
  if ok then ({ s with loading := false }, true) else (s, false)

/-- `vapiInstance.stop()` inside `endCall`: mark the stop request on
the current channel (the surrounding `try`/`catch` swallows any
throw, so the state effect is the same either way). -/
def stopChannel (cid : Nat) (chans : List Channel) : List Channel :=
  chans.map fun c => if c.chanId = cid then { c with stopRequested := true } else c

/-- One `vapiInstance.off(kind, handler)` call: removes the listener
with that event kind and that handler identity. -/
def offListener (cid : Nat) (k : EventKind) (hid : Nat) (chans : List Channel) : List Channel :=
  chans.map fun c =>
    if c.chanId = cid then
      { c with listeners := c.listeners.filter fun p => ¬(p.1 = k ∧ p.2 = hid) }
    else c

/-- The six `vapiInstance.off(...)` calls of `endCall` (page.tsx lines
245-250). -/
def offAllListeners (cid : Nat) (hid : Nat) (chans : List Channel) : List Channel :=
  offListener cid EventKind.error hid
    (offListener cid EventKind.speechEnd hid
      (offListener cid EventKind.speechStart hid
        (offListener cid EventKind.message hid
          (offListener cid EventKind.callEnd hid
            (offListener cid EventKind.callStart hid chans)))))

/-- `endCall` (page.tsx lines 229-261): first `await GenerateReport()`
— if that throws, `endCall` aborts with the rejection and nothing else
runs; then return early when no Vapi instance is stored; otherwise
request channel stop, deregister the six listeners when the handler ref
is still populated, reset the call state, null the handler ref, toast
success and redirect to the dashboard. -/
def endCall (reportOk : Bool) (s : AgentState) : AgentState :=
  match GenerateReport reportOk s with
  | (s, false) => s
  | (s, true) =>
    match s.vapiInstance with
    | none => s
    | some cid =>
      let s := { s with channels := stopChannel cid s.channels }
      let s :=
        match s.handlersRef with
        | some hid => { s with channels := offAllListeners cid hid s.channels }
        | none => s
      let s := resetCallState s
      { s with
        handlersRef := none
        toasts := s.toasts ++ ["Your report is generated!"]
        redirected := true }

/-- Run the handler the component registered for event kind `k`. -/
def runHandler (k : EventKind) (payload : JsVal) (s : AgentState) : AgentState :=
  match k with
  | EventKind.callStart => handleCallStart s
  | EventKind.callEnd => handleCallEnd s
  | EventKind.message => handleMessage payload s
  | EventKind.speechStart => handleSpeechStart s
  | EventKind.speechEnd => handleSpeechEnd s
  | EventKind.error => handleError payload s

/-- Deliver a channel event: the handler runs exactly when the emitting
channel exists and still has a listener registered for that kind. -/
def deliverEvent (cid : Nat) (k : EventKind) (payload : JsVal) (s : AgentState) : AgentState :=
  match s.channels.find? (fun c => c.chanId = cid) with
  | some chan =>
      if chan.listeners.any (fun p => p.1 = k) then runHandler k payload s else s
  | none => s

/-- One interaction with the component: a UI click on Start Call or
Disconnect, or an asynchronous event emitted by channel `cid`. -/
inductive Action where
  | start : Action
  | stop : Bool → Action
  | evt : Nat → EventKind → JsVal → Action
deriving Repr

/-- Apply one action to the component state. -/
def step (env : Env) (s : AgentState) : Action → AgentState
  | Action.start => StartCall env s
  | Action.stop reportOk => endCall reportOk s
  | Action.evt cid k payload => deliverEvent cid k payload s

/-- Apply a sequence of actions in order. -/
def run (env : Env) (s : AgentState) (trace : List Action) : AgentState :=
  trace.foldl (step env) s

/-- A well-formed `final` transcript event payload. -/
def finalEvt (role text : String) : JsVal :=
  JsVal.obj [("type", JsVal.str "transcript"), ("role", JsVal.str role),
             ("transcriptType", JsVal.str "final"), ("transcript", JsVal.str text)]

/-- A well-formed `partial` transcript event payload. -/
def partialEvt (role text : String) : JsVal :=
  JsVal.obj [("type", JsVal.str "transcript"), ("role", JsVal.str role),
             ("transcriptType", JsVal.str "partial"), ("transcript", JsVal.str text)]

/-- Number of explicit Disconnect clicks (`endCall` invocations) in a
trace. -/
def countStops : List Action → Nat
  | [] => 0
  | Action.stop _ :: rest => countStops rest + 1
  | _ :: rest => countStops rest

/-- Follow a path of field names through a JS value. -/
def pathGet : JsVal → List String → Option JsVal
  | v, [] => some v
  | v, f :: fs =>
    match v.getField f with
    | some w => pathGet w fs
    | none => none

/-- A nonempty string found at a field path. -/
def msgAt (v : JsVal) (path : List String) : Option String :=
  truthyStr (pathGet v path)

/-- First-match evaluation of an ordered rule list of extraction
paths. -/
def firstMatch (v : JsVal) : List (List String) → Option String
  | [] => none
  | p :: ps =>
    match msgAt v p with
    | some s => some s
    | none => firstMatch v ps

/-- The ordered extraction paths of the actual resolution order of
`handleError`, stated spec-style as a first-match-wins rule list:
direct `errorMsg`, `error.errorMsg`, `error.message`,
`error.error.message`, then direct `message`. -/
def extractionPaths : List (List String) :=
  [["errorMsg"], ["error", "errorMsg"], ["error", "message"],
   ["error", "error", "message"], ["message"]]

/-- The display message as an ordered first-match rule evaluation:
the first nonempty string found along `extractionPaths`, else the input
itself when it is a string, else the fixed fallback
"Call ended unexpectedly." (note the trailing period). -/
def errorResolutionSpec (v : JsVal) : String :=
  match firstMatch v extractionPaths with
  | some s => s
  | none =>
    match v with
    | JsVal.str s => s
    | _ => "Call ended unexpectedly."

/-- All finalized message ids are below the fresh-id counter. -/
def idBound (s : AgentState) : Prop :=
  ∀ m ∈ s.messages, m.id < s.nextMsgId

/-- A concrete environment with both secrets set. -/
def env0 : Env := { apiKey := some "pk_123", assistantId := some "asst_1" }

/-- A concrete environment with the channel API key absent. -/
def envNoKey : Env := { apiKey := none, assistantId := some "asst_1" }

/-- A concrete session descriptor. -/
def sd0 : SessionDetail :=
  { sessionId := "sess-1"
    selectedDoctor := { voiceId := some "will", agentPrompt := some "You are a doctor." } }

/-- The mounted component state with `sd0` loaded. -/
def s0 : AgentState := initState (some sd0)

theorem pathGet_one (v : JsVal) (f : String) : pathGet v [f] = v.getField f := by
  cases h : v.getField f <;> simp [pathGet, h]

theorem pathGet_cons (v : JsVal) (f : String) (fs : List String) :
    pathGet v (f :: fs) = (v.getField f).bind fun w => pathGet w fs := by
  cases h : v.getField f <;> simp [pathGet, h]

theorem asObj_getField (o : Option JsVal) (f : String) :
    ((JsVal.asObj o).bind fun n => n.getField f) = o.bind fun n => n.getField f := by
  cases o with
  | none => rfl
  | some v => cases v <;> rfl

theorem handleMessage_final (s : AgentState) (role text : String) :
    handleMessage (finalEvt role text) s =
      { s with
        messages := s.messages ++ [{ id := s.nextMsgId, role := role, text := text }]
        nextMsgId := s.nextMsgId + 1
        liveTranscript := ""
        currentRole := none } := by
  simp [handleMessage, transcriptFields, finalEvt, JsVal.getField, List.lookup]

theorem handleMessage_partialEvt (s : AgentState) (role text : String) :
    handleMessage (partialEvt role text) s =
      { s with liveTranscript := text, currentRole := some role } := by
  simp [handleMessage, transcriptFields, partialEvt, JsVal.getField, List.lookup]

/-- C9: a malformed message event (wrong `type` tag, or missing or
mistyped `role`, `transcriptType` or `transcript` field, i.e. any
payload the well-formedness check rejects) leaves the component state —
in particular the finalized log and the in-progress transcript —
unchanged; `handleMessage` is a total function, so it cannot throw. -/
theorem C9_malformed_ignored (v : JsVal) (s : AgentState)
    (h : transcriptFields v = none) : handleMessage v s = s := by
  simp [handleMessage, h]

theorem C9_malformed_ignored_witness :
    transcriptFields (JsVal.obj [("type", JsVal.str "bogus"), ("role", JsVal.num 3)]) = none
    ∧ handleMessage (JsVal.obj [("type", JsVal.str "bogus"), ("role", JsVal.num 3)]) s0 = s0 :=
  ⟨by decide, C9_malformed_ignored _ s0 (by decide)⟩

/-- C4 counterexample: from an active call, a failing report submission
during `endCall` does not leave the state machine in `Idle`: the call
aborts on the rejected POST with the loading flag set, the call-started
flag still set, the channel instance still stored, all six listeners
still registered, and no notification shown. -/
theorem C4_counterexample :
    (run env0 s0 [Action.start, Action.evt 0 EventKind.callStart JsVal.jsNull,
        Action.stop false]).loading = true
    ∧ (run env0 s0 [Action.start, Action.evt 0 EventKind.callStart JsVal.jsNull,
        Action.stop false]).callStarted = true
    ∧ (run env0 s0 [Action.start, Action.evt 0 EventKind.callStart JsVal.jsNull,
        Action.stop false]).vapiInstance = some 0
    ∧ (run env0 s0 [Action.start, Action.evt 0 EventKind.callStart JsVal.jsNull,
        Action.stop false]).toasts = []
    ∧ ((run env0 s0 [Action.start, Action.evt 0 EventKind.callStart JsVal.jsNull,
        Action.stop false]).channels.map fun c => c.listeners.length) = [6] := by
  decide

/-- C4 amended: a failing report submission aborts `endCall` right
after the POST, before any teardown: the state is unchanged except that
the loading flag is left set and the POST was issued — no toast, no
listener deregistration, no reset to `Idle`.  Teardown and the return
to `Idle` happen only on the success path. -/
theorem C4_amended_report_failure_aborts (s : AgentState) :
    endCall false s = { s with loading := true, reportPosts := s.reportPosts + 1 } := rfl

theorem StartCall_noKey (env : Env) (s : AgentState) (sd : SessionDetail)
    (hsd : s.sessionDetail = some sd) (hk : env.apiKey = none) :
    StartCall env s =
      { s with loading := false,
               toasts := s.toasts ++ ["Missing NEXT_PUBLIC_VAPI_API_KEY"] } := by
  simp [StartCall, hsd, hk]

/-- C5: with the channel credential absent, `StartCall` from `Idle`
fails immediately with a user-visible configuration toast; the state
remains `Idle` (call not started, no stored instance), no channel is
opened and no listeners are registered. -/
theorem C5_missing_key (env : Env) (s : AgentState) (sd : SessionDetail)
    (hsd : s.sessionDetail = some sd) (hk : env.apiKey = none)
    (hcs : s.callStarted = false) (hvi : s.vapiInstance = none)
    (hld : s.loading = false) :
    StartCall env s = { s with toasts := s.toasts ++ ["Missing NEXT_PUBLIC_VAPI_API_KEY"] }
    ∧ (StartCall env s).callStarted = false
    ∧ (StartCall env s).vapiInstance = none
    ∧ (StartCall env s).channels = s.channels
    ∧ (StartCall env s).handlersRef = s.handlersRef := by
  have h := StartCall_noKey env s sd hsd hk
  rw [h]
  obtain ⟨f1, f2, f3, f4, f5, f6, f7, f8, f9, f10, f11, f12, f13, f14⟩ := s
  simp only at hld
  subst hld
  exact ⟨rfl, hcs, hvi, rfl, rfl⟩

theorem C5_missing_key_witness :
    StartCall envNoKey s0 = { s0 with toasts := s0.toasts ++ ["Missing NEXT_PUBLIC_VAPI_API_KEY"] }
    ∧ (StartCall envNoKey s0).callStarted = false
    ∧ (StartCall envNoKey s0).vapiInstance = none
    ∧ (StartCall envNoKey s0).channels = s0.channels
    ∧ (StartCall envNoKey s0).handlersRef = s0.handlersRef :=
  C5_missing_key envNoKey s0 sd0 rfl rfl rfl rfl rfl

/-- C10: every reset path leaves the finalized transcript log
untouched: `resetCallState` updates exactly the call-started flag, the
channel instance, the current-speaker indicator, the in-progress
transcript and the loading flag; and the three paths that invoke it
(`endCall`, `handleCallEnd`, `handleError`) all preserve `messages`. -/
theorem C10_reset_frame (s : AgentState) (v : JsVal) (ok : Bool) :
    resetCallState s =
      { s with callStarted := false, vapiInstance := none, currentRole := none,
               liveTranscript := "", loading := false }
    ∧ (resetCallState s).messages = s.messages
    ∧ (handleCallEnd s).messages = s.messages
    ∧ (handleError v s).messages = s.messages
    ∧ (endCall ok s).messages = s.messages := by
  refine ⟨rfl, rfl, rfl, rfl, ?_⟩
  unfold endCall GenerateReport
  cases ok with
  | false => rfl
  | true =>
    simp only [if_true]
    cases hvi : s.vapiInstance with
    | none => rfl
    | some cid =>
      cases hhr : s.handlersRef with
      | none => rfl
      | some hid => rfl

theorem handleMessage_reportPosts (p : JsVal) (s : AgentState) :
    (handleMessage p s).reportPosts = s.reportPosts := by
  unfold handleMessage
  split
  · split
    · rfl
    · split
      · rfl
      · rfl
  · rfl

theorem runHandler_reportPosts (k : EventKind) (p : JsVal) (s : AgentState) :
    (runHandler k p s).reportPosts = s.reportPosts := by
  cases k with
  | message => exact handleMessage_reportPosts p s
  | callStart => rfl
  | callEnd => rfl
  | speechStart => rfl
  | speechEnd => rfl
  | error => rfl

theorem step_reportPosts (env : Env) (s : AgentState) (a : Action) :
    (step env s a).reportPosts = s.reportPosts + countStops [a] := by
  cases a with
  | start =>
    show (StartCall env s).reportPosts = s.reportPosts + 0
    unfold StartCall
    split
    · rfl
    · split
      · rfl
      · rfl
  | stop ok =>
    show (endCall ok s).reportPosts = s.reportPosts + 1
    unfold endCall GenerateReport
    cases ok with
    | false => rfl
    | true =>
      simp only [if_true]
      cases hvi : s.vapiInstance with
      | none => rfl
      | some cid =>
        cases hhr : s.handlersRef with
        | none => rfl
        | some hid => rfl
  | evt cid k p =>
    show (deliverEvent cid k p s).reportPosts = s.reportPosts + 0
    unfold deliverEvent
    split
    · split
      · rw [runHandler_reportPosts]
        omega
      · rfl
    · rfl

theorem run_reportPosts (env : Env) (trace : List Action) (s : AgentState) :
    (run env s trace).reportPosts = s.reportPosts + countStops trace := by
  induction trace generalizing s with
  | nil => rfl
  | cons a rest ih =>
    show (run env (step env s a) rest).reportPosts = _
    rw [ih, step_reportPosts]
    cases a <;> simp [countStops]
    omega

/-- C1 counterexample: a call lifecycle completed solely by a
channel-originated `call-ended` event never submits a report: after
start → call-started (the call is live) → call-ended (the call is
over, state back to `Idle`), `reportPosts` is `0`, not the
exactly-one the claim requires for every completed call. -/
theorem C1_counterexample :
    (run env0 s0 [Action.start, Action.evt 0 EventKind.callStart JsVal.jsNull]).callStarted = true
    ∧ (run env0 s0 [Action.start, Action.evt 0 EventKind.callStart JsVal.jsNull,
        Action.evt 0 EventKind.callEnd JsVal.jsNull]).callStarted = false
    ∧ (run env0 s0 [Action.start, Action.evt 0 EventKind.callStart JsVal.jsNull,
        Action.evt 0 EventKind.callEnd JsVal.jsNull]).vapiInstance = none
    ∧ (run env0 s0 [Action.start, Action.evt 0 EventKind.callStart JsVal.jsNull,
        Action.evt 0 EventKind.callEnd JsVal.jsNull]).reportPosts = 0 := by
  decide

/-- C1 amended: report submissions correspond one-to-one to explicit
`stop()` invocations — every `endCall` issues exactly one POST and no
channel event (in particular `call-ended`) ever issues one.  Hence a
call in which both an explicit `stop()` and a channel `call-ended`
event occur submits exactly once, while a call completed solely by a
channel `call-ended` event submits no report at all. -/
theorem C1_amended_reports_eq_stops (env : Env) (sd : Option SessionDetail)
    (trace : List Action) :
    (run env (initState sd) trace).reportPosts = countStops trace := by
  rw [run_reportPosts]
  simp [initState]

theorem StartCall_opens (env : Env) (s : AgentState) (sd : SessionDetail) (k : String)
    (hsd : s.sessionDetail = some sd) (hk : env.apiKey = some k) :
    StartCall env s =
      { s with
        loading := true
        vapiInstance := some s.nextChanId
        handlersRef := some s.nextChanId
        channels := s.channels ++
          [{ chanId := s.nextChanId, listeners := allListeners s.nextChanId,
             startedWith := some (startArgFor env sd), stopRequested := false }]
        nextChanId := s.nextChanId + 1 } := by
  simp [StartCall, hsd, hk]

/-- C2 counterexample: `StartCall` performs no call-state check — two
consecutive `start()` invocations without an intervening stop open two
channel handles, each with its own six listeners (twelve registrations
in total), violating "exactly one Channel Handle and exactly one
registered listener per event kind"; and `endCall` invoked while
`Idle` (no stored channel instance) still issues a report POST, so
`stop()` while `Idle` is not a no-op free of report submission. -/
theorem C2_counterexample :
    (run env0 s0 [Action.start, Action.start]).channels.length = 2
    ∧ ((run env0 s0 [Action.start, Action.start]).channels.map fun c => c.listeners.length)
        = [6, 6]
    ∧ s0.vapiInstance = none
    ∧ (endCall true s0).reportPosts = 1 := by
  decide

/-- C2 amended: `StartCall` is guarded only by the presence of the
session descriptor and the API key, not by call state — from any state
satisfying those two it opens one more channel handle carrying six
fresh listeners (so two consecutive starts yield two handles); and
`endCall` while `Idle` first submits one report POST and then returns
before any teardown, without raising an error: the state is unchanged
except for the POST count. -/
theorem C2_amended_guards (env : Env) (s : AgentState) (sd : SessionDetail) (k : String)
    (hsd : s.sessionDetail = some sd) (hk : env.apiKey = some k)
    (hvi : s.vapiInstance = none) (hld : s.loading = false) :
    (StartCall env s).channels.length = s.channels.length + 1
    ∧ (StartCall env (StartCall env s)).channels.length = s.channels.length + 2
    ∧ endCall true s = { s with reportPosts := s.reportPosts + 1 } := by
  have h1 := StartCall_opens env s sd k hsd hk
  have h2 := StartCall_opens env (StartCall env s) sd k (by rw [h1]; exact hsd) hk
  refine ⟨by rw [h1]; simp, by rw [h2, h1]; simp, ?_⟩
  obtain ⟨f1, f2, f3, f4, f5, f6, f7, f8, f9, f10, f11, f12, f13, f14⟩ := s
  simp only at hvi hld
  subst hvi
  subst hld
  rfl

theorem C2_amended_guards_witness :
    (StartCall env0 s0).channels.length = s0.channels.length + 1
    ∧ (StartCall env0 (StartCall env0 s0)).channels.length = s0.channels.length + 2
    ∧ endCall true s0 = { s0 with reportPosts := s0.reportPosts + 1 } :=
  C2_amended_guards env0 s0 sd0 "pk_123" rfl rfl rfl rfl

/-- C3 counterexample: after a channel `error` event received while the
call is `Active`, the six listeners registered on the channel handle
remain registered — `handleError` never calls `vapi.off`, so "deregisters
all registered channel listeners" fails on the code. -/
theorem C3_counterexample :
    (run env0 s0 [Action.start, Action.evt 0 EventKind.callStart JsVal.jsNull]).callStarted = true
    ∧ ((run env0 s0 [Action.start, Action.evt 0 EventKind.callStart JsVal.jsNull,
        Action.evt 0 EventKind.error (JsVal.obj [])]).channels.map fun c => c.listeners.length)
        = [6] := by
  decide

/-- C3 amended: a channel `error` event whose listener is still
registered normalizes the payload, resets the state machine directly to
`Idle` (call-started flag, channel instance, speaker indicator, live
transcript and loading flag all cleared), clears the component's
handler reference, surfaces the normalized message as a notification,
and does not invoke the Report Trigger; the channel listeners are not
deregistered — the channel records (including every registered
listener) are unchanged. -/
theorem C3_amended_error_resets (cid : Nat) (v : JsVal) (s : AgentState) (chan : Channel)
    (hfind : s.channels.find? (fun c => c.chanId = cid) = some chan)
    (hlis : (chan.listeners.any fun p => p.1 = EventKind.error) = true) :
    deliverEvent cid EventKind.error v s =
      { s with callStarted := false, vapiInstance := none, currentRole := none,
               liveTranscript := "", loading := false, handlersRef := none,
               toasts := s.toasts ++ [normalizeError v] }
    ∧ (deliverEvent cid EventKind.error v s).channels = s.channels
    ∧ (deliverEvent cid EventKind.error v s).reportPosts = s.reportPosts
    ∧ (deliverEvent cid EventKind.error v s).messages = s.messages := by
  have h : deliverEvent cid EventKind.error v s = handleError v s := by
    unfold deliverEvent
    rw [hfind]
    simp only [hlis, if_true]
    rfl
  rw [h]
  exact ⟨rfl, rfl, rfl, rfl⟩

theorem C3_amended_error_resets_witness :
    deliverEvent 0 EventKind.error (JsVal.obj [])
        (run env0 s0 [Action.start, Action.evt 0 EventKind.callStart JsVal.jsNull]) =
      { (run env0 s0 [Action.start, Action.evt 0 EventKind.callStart JsVal.jsNull]) with
        callStarted := false, vapiInstance := none, currentRole := none,
        liveTranscript := "", loading := false, handlersRef := none,
        toasts := (run env0 s0 [Action.start,
          Action.evt 0 EventKind.callStart JsVal.jsNull]).toasts
            ++ [normalizeError (JsVal.obj [])] }
    ∧ (deliverEvent 0 EventKind.error (JsVal.obj [])
        (run env0 s0 [Action.start, Action.evt 0 EventKind.callStart JsVal.jsNull])).channels
        = (run env0 s0 [Action.start, Action.evt 0 EventKind.callStart JsVal.jsNull]).channels
    ∧ (deliverEvent 0 EventKind.error (JsVal.obj [])
        (run env0 s0 [Action.start, Action.evt 0 EventKind.callStart JsVal.jsNull])).reportPosts
        = (run env0 s0 [Action.start, Action.evt 0 EventKind.callStart JsVal.jsNull]).reportPosts
    ∧ (deliverEvent 0 EventKind.error (JsVal.obj [])
        (run env0 s0 [Action.start, Action.evt 0 EventKind.callStart JsVal.jsNull])).messages
        = (run env0 s0 [Action.start, Action.evt 0 EventKind.callStart JsVal.jsNull]).messages :=
  C3_amended_error_resets 0 (JsVal.obj [])
    (run env0 s0 [Action.start, Action.evt 0 EventKind.callStart JsVal.jsNull])
    { chanId := 0, listeners := allListeners 0,
      startedWith := some (StartArg.assistant "asst_1"), stopRequested := false }
    (by decide) (by decide)

theorem pathGet_nil (v : JsVal) : pathGet v [] = some v := rfl

theorem bind_pure (o : Option JsVal) : (o.bind fun w => some w) = o := by
  cases o <;> rfl

theorem firstMatch_nil (v : JsVal) : firstMatch v [] = none := rfl

theorem firstMatch_cons (v : JsVal) (p : List String) (ps : List (List String)) :
    firstMatch v (p :: ps) = (msgAt v p).orElse fun _ => firstMatch v ps := by
  cases h : msgAt v p <;> simp [firstMatch, h, Option.orElse]

theorem spec_getD (v : JsVal) :
    errorResolutionSpec v = (firstMatch v extractionPaths).getD
      (match v with | JsVal.str s => s | _ => "Call ended unexpectedly.") := by
  cases h : firstMatch v extractionPaths <;> simp [errorResolutionSpec, h]

theorem normalizeError_eq_spec (v : JsVal) : normalizeError v = errorResolutionSpec v := by
  have e2 : msgAt v ["error", "errorMsg"] =
      truthyStr ((v.getField "error").bind fun n => n.getField "errorMsg") := by
    simp only [msgAt, pathGet_cons, pathGet_nil, bind_pure]
  have e3 : msgAt v ["error", "message"] =
      truthyStr ((v.getField "error").bind fun n => n.getField "message") := by
    simp only [msgAt, pathGet_cons, pathGet_nil, bind_pure]
  have e4 : msgAt v ["error", "error", "message"] =
      truthyStr ((v.getField "error").bind fun w =>
        (w.getField "error").bind fun n => n.getField "message") := by
    simp only [msgAt, pathGet_cons, pathGet_nil, bind_pure]
  rw [spec_getD]
  simp only [extractionPaths, firstMatch_cons, firstMatch_nil, Option.orElse_none']
  rw [e2, e3, e4]
  simp only [msgAt, pathGet_one]
  simp only [normalizeError, asObj_getField, Option.bind_assoc]

/-- C6 counterexample: the claimed resolution order fails on the code
in two ways.  First, a direct `message` field does *not* win over a
nested `error.message` field: on
`{message: "A", error: {message: "B"}}` the code returns `"B"`, not
`"A"` as rule (1)-before-(2) requires.  Second, the fixed fallback the
code returns for `{}` is `"Call ended unexpectedly."` (trailing
period), not `"Call ended unexpectedly"`. -/
theorem C6_counterexample :
    normalizeError (JsVal.obj [("message", JsVal.str "A"),
      ("error", JsVal.obj [("message", JsVal.str "B")])]) = "B"
    ∧ "B" ≠ "A"
    ∧ normalizeError (JsVal.obj []) = "Call ended unexpectedly."
    ∧ "Call ended unexpectedly." ≠ "Call ended unexpectedly" :=
  ⟨rfl, by decide, rfl, by decide⟩

/-- C6 amended: the Error Normalizer resolves the display message by
the ordered first-match rule (1) a direct `errorMsg` field, (2) an
`errorMsg` field nested under `error`, (3) a `message` field nested
under `error`, (4) a `message` field two levels nested
(`error.error.message`), (5) a direct `message` field — each matching
only nonempty strings — then (6) the input itself if it is a string,
else (7) the fixed fallback `"Call ended unexpectedly."`; in
particular `{error: {error: {message: "X"}}}` yields `"X"` for
nonempty `"X"` and `{}` yields the fixed fallback. -/
theorem C6_amended_resolution (v : JsVal) (x : String) (hx : x ≠ "") :
    normalizeError v = errorResolutionSpec v
    ∧ normalizeError (JsVal.obj [("error", JsVal.obj [("error",
        JsVal.obj [("message", JsVal.str x)])])]) = x
    ∧ normalizeError (JsVal.obj []) = "Call ended unexpectedly." := by
  refine ⟨normalizeError_eq_spec v, ?_, rfl⟩
  simp [normalizeError, JsVal.getField, JsVal.asObj, truthyStr, List.lookup, hx]

theorem C6_amended_resolution_witness :
    ("X" : String) ≠ ""
    ∧ (normalizeError (JsVal.obj []) = errorResolutionSpec (JsVal.obj [])
       ∧ normalizeError (JsVal.obj [("error", JsVal.obj [("error",
           JsVal.obj [("message", JsVal.str "X")])])]) = "X"
       ∧ normalizeError (JsVal.obj []) = "Call ended unexpectedly.") :=
  ⟨by decide, C6_amended_resolution (JsVal.obj []) "X" (by decide)⟩

theorem idBound_initState (sd : Option SessionDetail) : idBound (initState sd) := by
  intro m hm
  simp [initState] at hm

theorem idBound_handleMessage (p : JsVal) (s : AgentState) (h : idBound s) :
    idBound (handleMessage p s) := by
  unfold handleMessage
  split
  · split
    · exact h
    · split
      · intro m hm
        simp only [List.mem_append, List.mem_singleton] at hm
        rcases hm with hm | rfl
        · exact Nat.lt_succ_of_lt (h m hm)
        · exact Nat.lt_succ_self _
      · exact h
  · exact h

theorem idBound_step (env : Env) (s : AgentState) (a : Action) (h : idBound s) :
    idBound (step env s a) := by
  cases a with
  | start =>
    show idBound (StartCall env s)
    unfold StartCall
    split
    · exact h
    · split
      · exact h
      · exact h
  | stop ok =>
    show idBound (endCall ok s)
    unfold endCall GenerateReport
    cases ok with
    | false => exact h
    | true =>
      simp only [if_true]
      cases hvi : s.vapiInstance with
      | none => exact h
      | some cid =>
        cases hhr : s.handlersRef with
        | none => exact h
        | some hid => exact h
  | evt cid k p =>
    show idBound (deliverEvent cid k p s)
    unfold deliverEvent
    split
    · split
      · cases k with
        | message => exact idBound_handleMessage p s h
        | callStart => exact h
        | callEnd => exact h
        | speechStart => exact h
        | speechEnd => exact h
        | error => exact h
      · exact h
    · exact h

theorem idBound_run (env : Env) (trace : List Action) (s : AgentState) (h : idBound s) :
    idBound (run env s trace) := by
  induction trace generalizing s with
  | nil => exact h
  | cons a rest ih => exact ih _ (idBound_step env s a h)

/-- C7: processing a well-formed `final` transcript event in any
reachable component state appends exactly one entry whose role and
text equal the event's and whose id is the fresh counter value —
distinct from every existing id — leaving all prior entries in place
and clearing the in-progress utterance and current role. -/
theorem C7_final_appends (env : Env) (sd : Option SessionDetail) (trace : List Action)
    (role text : String) :
    (handleMessage (finalEvt role text) (run env (initState sd) trace)).messages
      = (run env (initState sd) trace).messages
        ++ [{ id := (run env (initState sd) trace).nextMsgId, role := role, text := text }]
    ∧ (handleMessage (finalEvt role text) (run env (initState sd) trace)).messages.length
      = (run env (initState sd) trace).messages.length + 1
    ∧ (handleMessage (finalEvt role text) (run env (initState sd) trace)).liveTranscript = ""
    ∧ (handleMessage (finalEvt role text) (run env (initState sd) trace)).currentRole = none
    ∧ ∀ m ∈ (run env (initState sd) trace).messages,
        m.id ≠ (run env (initState sd) trace).nextMsgId := by
  have hb := idBound_run env trace (initState sd) (idBound_initState sd)
  refine ⟨?_, ?_, ?_, ?_, fun m hm => Nat.ne_of_lt (hb m hm)⟩
  · rw [handleMessage_final]
  · rw [handleMessage_final]
    simp
  · rw [handleMessage_final]
  · rw [handleMessage_final]

/-- C8: after any nonempty sequence of well-formed `partial` transcript
events, the in-progress utterance equals exactly the most recently
received event's role and text (replaced wholesale), and the finalized
log is unchanged by the whole sequence. -/
theorem C8_partial_replaces (s : AgentState) (ps : List (String × String))
    (p : String × String) :
    ((ps ++ [p]).foldl (fun st pr => handleMessage (partialEvt pr.1 pr.2) st) s).liveTranscript
      = p.2
    ∧ ((ps ++ [p]).foldl (fun st pr => handleMessage (partialEvt pr.1 pr.2) st) s).currentRole
      = some p.1
    ∧ ((ps ++ [p]).foldl (fun st pr => handleMessage (partialEvt pr.1 pr.2) st) s).messages
      = s.messages := by
  induction ps generalizing s with
  | nil => simp [handleMessage_partialEvt]
  | cons q qs ih =>
    have h := ih (handleMessage (partialEvt q.1 q.2) s)
    simpa [handleMessage_partialEvt] using h

end MedAgent
